import Mathlib

/-!
Verification of the trade-signal aggregation core (feature_calculator.py,
signal_analyzer.py) against its natural-language specification.

Shallow embedding conventions:
* Python floats are modelled as exact rationals (`ℚ`); the two places where an
  irrational square root genuinely appears (sample standard deviation inside
  the Z-score, the Pearson-correlation denominator) are modelled over `ℝ`.
* pandas Series become `List ℚ`; a missing dataframe (`None`) becomes `none`.
* Of each pandas `ewm`/`rolling` pipeline only the values the source actually
  consumes (`iloc[-1]`, a full rolling series, …) are embedded, with NaN
  propagation made explicit where it reaches a consumed value.
-/

namespace Trade

/-- Values from config.py. -/
def Z_WINDOW : ℕ := 20

def RSI_PERIOD : ℕ := 14

def ATR_PERIOD : ℕ := 14

def EMA_SHORT : ℕ := 50

def EMA_LONG : ℕ := 200

/-- Trend direction label produced by `calculate_trend`. -/
inductive Trend where
  | up | down | neutral
deriving DecidableEq, Repr

/-- Market regime label produced by `get_market_regime`. -/
inductive Regime where
  | range | oversold | overbought | accumulation | distribution | trending
deriving DecidableEq, Repr

/-- Volatility bucket label. -/
inductive Volatility where
  | low | medium | high
deriving DecidableEq, Repr

/-- Qualitative confidence label. -/
inductive Conf where
  | low | medium | high
deriving DecidableEq, Repr

/-- Aggregate consensus label returned by `get_consensus_signal`
(upper-case `'BUY'`/`'SELL'`/`'HOLD'` in the source). -/
inductive ConsLabel where
  | BUY | SELL | HOLD
deriving DecidableEq, Repr

/-- A Python value fed to `get_consensus_signal`: the per-timeframe votes are
either numbers (binary mode) or strings (ternary and level modes). -/
inductive PyVal where
  | num (q : ℚ)
  | str (s : String)
deriving DecidableEq, Repr

/-- The `signal_type` parameter of `get_consensus_signal`. -/
inductive SignalType where
  | binary | ternary | level
deriving DecidableEq, Repr

/-- Per-vote conversion step inside `get_consensus_signal`: each dict value is
turned into an entry of the `signals` list. -/
def toSignal (ty : SignalType) (val : PyVal) : PyVal :=
  match ty with
  | .binary =>
    -- signals.append('buy' if val > 0 else 'sell' if val < 0 else 'hold');
    -- a string compared with 0 would raise in Python, folded here to 'hold'
    -- (never exercised: binary mode is only called with numeric dicts).
    match val with
    | .num q => if q > 0 then .str "buy" else if q < 0 then .str "sell" else .str "hold"
    | .str _ => .str "hold"
  | .ternary =>
    match val with
    | .str s =>
      if s = "buy" ∨ s = "oversold" then .str "buy"
      else if s = "sell" ∨ s = "overbought" then .str "sell"
      else .str "hold"
    | .num _ => .str "hold"
  | .level => val

/-- feature_calculator.get_consensus_signal.  The dict of per-timeframe votes
is modelled as the list of its values (insertion order; keys are unused). -/
def get_consensus_signal (values : List PyVal) (threshold : ℕ) (ty : SignalType) :
    ConsLabel × ℕ :=
  if values = [] then (.HOLD, 0)
  else
    let signals := values.map (toSignal ty)
    let buy_count := signals.count (.str "buy")
    let sell_count := signals.count (.str "sell")
    if buy_count ≥ threshold then (.BUY, buy_count)
    else if sell_count ≥ threshold then (.SELL, sell_count)
    else (.HOLD, 0)

/-- Count of converted `'buy'` votes (helper naming the intermediate
`buy_count` of the source). -/
def buyCount (values : List PyVal) (ty : SignalType) : ℕ :=
  (values.map (toSignal ty)).count (.str "buy")

/-- Count of converted `'sell'` votes. -/
def sellCount (values : List PyVal) (ty : SignalType) : ℕ :=
  (values.map (toSignal ty)).count (.str "sell")

/-- feature_calculator.get_market_regime: the regime if-chain together with
the volatility bucketing (thresholds 1.5 / 3.0) computed alongside it. -/
def get_market_regime (z_4h rsi_4h atr_pct volume_z_4h : ℚ)
    (trend_direction : Trend) : Regime × Volatility :=
  let volatility : Volatility :=
    if atr_pct < 3/2 then .low
    else if atr_pct < 3 then .medium
    else .high
  let regime : Regime :=
    if |z_4h| < 1 ∧ 40 < rsi_4h ∧ rsi_4h < 60 then .range
    else if z_4h < -2 ∧ rsi_4h < 30 ∧ trend_direction = .up then .oversold
    else if z_4h > 2 ∧ rsi_4h > 70 ∧ trend_direction = .down then .overbought
    else if z_4h < -1 ∧ volume_z_4h > 1 then .accumulation
    else if z_4h > 1 ∧ volume_z_4h < -1 then .distribution
    else .trending
  (regime, volatility)

/-! ## Indicator engine (feature_calculator.py) -/

/-- Last value of a pandas `ewm(adjust=True).mean()` with decay factor
`r = 1 - alpha`, via the weighted-sum / weighted-count pair:
after x₀…xₙ the pair is (Σ rⁱ·xₙ₋ᵢ, Σ rⁱ). -/
def ewmStep (r : ℚ) (acc : ℚ × ℚ) (x : ℚ) : ℚ × ℚ :=
  (x + r * acc.1, 1 + r * acc.2)

/-- Last value of `series.ewm(alpha=alpha, adjust=True).mean()`.  Only the
last value of each ewm series is consumed by the source (`iloc[-1]`);
`min_periods` merely NaN-masks earlier entries and, at every call site, the
enclosing length guard makes the last entry valid. -/
def ewmLastAlpha (xs : List ℚ) (alpha : ℚ) : ℚ :=
  let p := xs.foldl (ewmStep (1 - alpha)) (0, 0)
  p.1 / p.2

/-- Last value of `series.ewm(span=span, adjust=True).mean()`
(pandas: alpha = 2/(span+1)). -/
def ewmLastSpan (xs : List ℚ) (span : ℕ) : ℚ :=
  ewmLastAlpha xs (2 / (span + 1))

/-- feature_calculator.calculate_ema, restricted to the last value (the only
one consumed, via `.iloc[-1]` in `calculate_trend`).  Both branches of the
source use span `max(period, 1)`; they differ only in `min_periods`, which
does not affect the last value whenever the series is non-empty and at least
`min_periods` long — guaranteed at the call site in `calculate_trend`. -/
def calculate_ema_last (xs : List ℚ) (period : ℕ) : ℚ :=
  ewmLastSpan xs (max period 1)

/-- `series.diff()` without its leading NaN: consecutive differences. -/
def diffs (xs : List ℚ) : List ℚ :=
  List.zipWith (fun a b => b - a) xs xs.tail

/-- `delta.where(delta > 0, 0)`: the leading NaN of `diff()` fails the
condition and becomes 0, hence the `0 ::`. -/
def gains (xs : List ℚ) : List ℚ :=
  0 :: (diffs xs).map (fun d => if d > 0 then d else 0)

/-- `(-delta).where(delta < 0, 0)` with the leading NaN collapsed to 0. -/
def losses (xs : List ℚ) : List ℚ :=
  0 :: (diffs xs).map (fun d => if d < 0 then -d else 0)

/-- feature_calculator.calculate_rsi.  On the long branch the last value of
the Wilder-smoothed gain/loss ewm (alpha = 1/period) is consumed; a zero
average loss is replaced by the epsilon 1e-10 before division.  `period = 0`
raises ZeroDivisionError in Python (alpha = 1/0), caught by the bare
`except` returning 50.0. -/
def calculate_rsi (xs : List ℚ) (period : ℕ) : ℚ :=
  if xs.length < max 2 period then 50
  else if period = 0 then 50
  else
    let avg_gain := ewmLastAlpha (gains xs) (1 / period)
    let avg_loss := ewmLastAlpha (losses xs) (1 / period)
    let avg_loss := if avg_loss = 0 then 1 / 10 ^ 10 else avg_loss
    let rs := avg_gain / avg_loss
    100 - 100 / (1 + rs)

/-- The MACD line value at 0-based index `t`: difference of the two
span-ewm means over the first `t+1` closes (`adjust=True` makes each ewm
entry a function of its own prefix). -/
def macdAt (xs : List ℚ) (fast slow : ℕ) (t : ℕ) : ℚ :=
  ewmLastSpan (xs.take (t + 1)) fast - ewmLastSpan (xs.take (t + 1)) slow

/-- The valid (non-NaN) tail of the MACD line: entries at indices
`< max fast slow - 1` are NaN because both underlying ewms carry
`min_periods`. -/
def macdValidSeries (xs : List ℚ) (fast slow : ℕ) : List ℚ :=
  ((List.range xs.length).drop (max fast slow - 1)).map (macdAt xs fast slow)

/-- feature_calculator.calculate_macd `(macd, signal, histogram)` last values.
The signal line is a span-ewm (`min_periods=signal`) over the MACD series,
whose NaN head (from the MACD ewms' own `min_periods`) is skipped by pandas;
when fewer than `signal` valid MACD entries exist the signal line's last
entry is still NaN and `safe_float` collapses it — and the histogram — to
0.0.  A zero span would raise in pandas, caught by the bare `except`. -/
def calculate_macd (xs : List ℚ) (fast slow signal : ℕ) : ℚ × ℚ × ℚ :=
  if xs.length < max (max fast slow) signal + 2 then (0, 0, 0)
  else if fast = 0 ∨ slow = 0 ∨ signal = 0 then (0, 0, 0)
  else
    let macd_val := ewmLastSpan xs fast - ewmLastSpan xs slow
    let valid := macdValidSeries xs fast slow
    if valid.length < signal then (macd_val, 0, 0)
    else
      let signal_val := ewmLastSpan valid signal
      (macd_val, signal_val, macd_val - signal_val)

/-- The last `min w (t+1)` elements of the length-`(t+1)` prefix: the window
`rolling(w, min_periods=1)` sees at 0-based index `t`. -/
def windowAt (xs : List ℚ) (w t : ℕ) : List ℚ :=
  (xs.take (t + 1)).drop (t + 1 - w)

/-- Arithmetic mean of a list (0 on the empty list, never consumed there). -/
def listMean (xs : List ℚ) : ℚ := xs.sum / xs.length

/-- `series.rolling(w, min_periods=1).mean()` as a list. -/
def rollMean (xs : List ℚ) (w : ℕ) : List ℚ :=
  (List.range xs.length).map (fun t => listMean (windowAt xs w t))

/-- `series.rolling(w, min_periods=1).min()` as a list (each window is
non-empty, so the `getD` default is never consumed). -/
def rollMin (xs : List ℚ) (w : ℕ) : List ℚ :=
  (List.range xs.length).map (fun t => ((windowAt xs w t).min?).getD 0)

/-- `series.rolling(w, min_periods=1).max()` as a list. -/
def rollMax (xs : List ℚ) (w : ℕ) : List ℚ :=
  (List.range xs.length).map (fun t => ((windowAt xs w t).max?).getD 0)

/-- feature_calculator.calculate_stoch_rsi `(stoch_k, stoch_d)` last values:
rolling-mean RSI, min-max normalised over `period` (zero span replaced by
the epsilon 1e-10), double-smoothed.  The `fillna(0.5)`/inf replacements
never fire in exact arithmetic because every substituted denominator is
positive.  A zero rolling window raises in pandas, caught by the `except`. -/
def calculate_stoch_rsi (xs : List ℚ) (period smooth_k smooth_d : ℕ) : ℚ × ℚ :=
  if xs.length < max (max period smooth_k) smooth_d + 5 then (1/2, 1/2)
  else if period = 0 ∨ smooth_k = 0 ∨ smooth_d = 0 then (1/2, 1/2)
  else
    let avg_gain := rollMean (gains xs) period
    let avg_loss := rollMean (losses xs) period
    let rs := List.zipWith
      (fun g l => g / (if l = 0 then 1 / 10 ^ 10 else l)) avg_gain avg_loss
    let rsi := rs.map (fun r => 100 - 100 / (1 + r))
    let mn := rollMin rsi period
    let mx := rollMax rsi period
    let stoch := List.zipWith (fun r p =>
      (r - p.1) / (if p.2 - p.1 = 0 then 1 / 10 ^ 10 else p.2 - p.1))
      rsi (List.zip mn mx)
    let stoch_k := rollMean stoch smooth_k
    let stoch_d := rollMean stoch_k smooth_d
    ((stoch_k.getLast?).getD (1/2), (stoch_d.getLast?).getD (1/2))

/-- One OHLCV row, restricted to the fields `calculate_atr_level` reads. -/
structure Candle where
  high : ℚ
  low : ℚ
  close : ℚ
deriving DecidableEq, Repr

/-- The true-range series: first row has no previous close (`shift()` NaN,
skipped by the row-wise `max`), later rows take the familiar 3-way max. -/
def trueRanges : List Candle → List ℚ
  | [] => []
  | c :: cs =>
    (c.high - c.low) ::
      (List.zipWith
        (fun prev cur =>
          max (cur.high - cur.low)
            (max |cur.high - prev.close| |cur.low - prev.close|))
        (c :: cs) cs)

/-- feature_calculator.calculate_atr_level: last value of the rolling-mean
true range as a percentage of the last close.  A zero close yields inf in
Python (returned as-is by `safe_float`); in ℚ the division collapses to 0 —
no claim touches that corner.  A zero rolling window raises, caught by the
`except`. -/
def calculate_atr_level (df : List Candle) (period : ℕ) : ℚ :=
  if df.length < max period 2 then 0
  else if period = 0 then 0
  else
    let atr := rollMean (trueRanges df) period
    let atr_last := (atr.getLast?).getD 0
    let close_last := ((df.map Candle.close).getLast?).getD 0
    atr_last / close_last * 100

/-- The last `n` elements of a list (`series[-n:]`). -/
def lastN (xs : List ℚ) (n : ℕ) : List ℚ := xs.drop (xs.length - n)

/-- feature_calculator.calculate_z_score `(z, mean, std)`.  The sample
standard deviation (pandas `std()`, ddof = 1) forces ℝ.  With `window = 1`
pandas yields std = NaN and the source returns `(0.0, mean, NaN)`; here the
division by `window - 1 = 0` collapses the variance to 0 and the same
`std = 0` branch is taken, differing only in the never-consumed third
component. -/
noncomputable def calculate_z_score (xs : List ℚ) (window : ℕ) : ℝ × ℝ × ℝ :=
  if xs.length < window ∨ window = 0 then (0, 0, 0)
  else
    let w := lastN xs window
    let mean : ℝ := (w.sum : ℚ) / (window : ℝ)
    let varSample : ℝ := (w.map (fun x => ((x : ℝ) - mean) ^ 2)).sum / ((window : ℝ) - 1)
    let std : ℝ := Real.sqrt varSample
    if std = 0 then (0, mean, std)
    else ((((xs.getLast?).getD 0 : ℚ) - mean) / std, mean, std)

/-- Numerator of the Pearson correlation over two aligned windows,
scaled by n²: n·Σxy − Σx·Σy. -/
def pearsonNum (xs ys : List ℚ) : ℚ :=
  (xs.length : ℚ) * (List.zipWith (· * ·) xs ys).sum - xs.sum * ys.sum

/-- Square of the (scaled) Pearson denominator:
(n·Σx² − (Σx)²)·(n·Σy² − (Σy)²); nonnegative by Cauchy–Schwarz. -/
def pearsonDenSq (xs ys : List ℚ) : ℚ :=
  ((xs.length : ℚ) * (xs.map (· ^ 2)).sum - xs.sum ^ 2) *
    ((ys.length : ℚ) * (ys.map (· ^ 2)).sum - ys.sum ^ 2)

/-- scipy.stats.pearsonr (first component).  A constant input gives a zero
denominator and a NaN correlation, which `calculate_correlation` maps to
0.0 — folded into the `≤ 0` branch here. -/
noncomputable def pearsonr (xs ys : List ℚ) : ℝ :=
  if pearsonDenSq xs ys ≤ 0 then 0
  else (pearsonNum xs ys : ℝ) / Real.sqrt (pearsonDenSq xs ys)

/-- feature_calculator.calculate_correlation.  `None` input raises
TypeError at `len()`, caught by the bare `except` returning 0.0; fewer than
2 points would make scipy raise, likewise caught.  The source aligns the two
series to their common tail before slicing the trailing window. -/
noncomputable def calculate_correlation
    (s1 s2 : Option (List ℚ)) (window : ℕ) : ℝ :=
  match s1, s2 with
  | some xs, some ys =>
    if xs.length < window ∨ ys.length < window then 0
    else if window < 2 then 0
    else
      let m := min xs.length ys.length
      let s1w := lastN (lastN xs m) window
      let s2w := lastN (lastN ys m) window
      pearsonr s1w s2w
  | _, _ => 0

/-! ## Trend (feature_calculator.calculate_trend) -/

/-- The per-timeframe close-series map handed to `calculate_trend`; only the
three configured timeframes exist, and only the close column and the row
count of each dataframe are consumed. -/
structure TFrames where
  tf4h : Option (List ℚ)
  tf1h : Option (List ℚ)
  tf15m : Option (List ℚ)
deriving DecidableEq, Repr

/-- First dataframe, in the order 4h → 1h → 15m, that is present and
non-empty (`tf_name in dfs and dfs[tf_name] is not None and len > 0`). -/
def firstPresent (d : TFrames) : Option (List ℚ) :=
  match d.tf4h with
  | some xs => if xs ≠ [] then some xs else firstPresent1 d
  | none => firstPresent1 d
where
  firstPresent1 (d : TFrames) : Option (List ℚ) :=
    match d.tf1h with
    | some xs => if xs ≠ [] then some xs else firstPresent2 d
    | none => firstPresent2 d
  firstPresent2 (d : TFrames) : Option (List ℚ) :=
    match d.tf15m with
    | some xs => if xs ≠ [] then some xs else none
    | none => none

/-- feature_calculator.calculate_trend with the default search order
`['4h','1h','15m']` used at every call site: the first present non-empty
timeframe is the main dataframe; the EMA 50/200 cross is evaluated only
when that dataframe has at least `max(EMA_SHORT, 10)` rows, else the trend
stays `'neutral'`. -/
def calculate_trend (d : TFrames) : Trend × Option (List ℚ) :=
  match firstPresent d with
  | none => (.neutral, none)
  | some xs =>
    if xs.length ≥ max EMA_SHORT 10 then
      let ema_50 := calculate_ema_last xs EMA_SHORT
      let ema_200 := calculate_ema_last xs EMA_LONG
      (if ema_50 > ema_200 then .up
       else if ema_50 < ema_200 then .down
       else .neutral, some xs)
    else (.neutral, some xs)

/-- The trend rule exactly as the claim words it: search the timeframes in
the order 4h, 1h, 15m and use the first one *with sufficient length for the
EMA computation* (the code's own sufficiency bound `max(EMA_SHORT, 10)`);
on it, EMA50 > EMA200 → up, < → down, else neutral.  Written from the
claim, to be compared with the source embedding `calculate_trend`. -/
def trendSpecClaim (d : TFrames) : Trend :=
  let suff : Option (List ℚ) → Option (List ℚ) := fun o =>
    match o with
    | some xs => if xs.length ≥ max EMA_SHORT 10 then some xs else none
    | none => none
  match (suff d.tf4h).orElse (fun _ => (suff d.tf1h).orElse (fun _ => suff d.tf15m)) with
  | none => .neutral
  | some xs =>
    if calculate_ema_last xs EMA_SHORT > calculate_ema_last xs EMA_LONG then .up
    else if calculate_ema_last xs EMA_SHORT < calculate_ema_last xs EMA_LONG then .down
    else .neutral

/-- The trend rule as amended: the first present *non-empty* timeframe is
chosen (regardless of sufficiency); a chosen series shorter than
`max(EMA_SHORT, 10)` yields neutral; otherwise the EMA 50/200 cross
decides. -/
def trendSpecAmended (d : TFrames) : Trend :=
  match firstPresent d with
  | none => .neutral
  | some xs =>
    if xs.length ≥ max EMA_SHORT 10 then
      if calculate_ema_last xs EMA_SHORT > calculate_ema_last xs EMA_LONG then .up
      else if calculate_ema_last xs EMA_SHORT < calculate_ema_last xs EMA_LONG then .down
      else .neutral
    else .neutral

/-- The market-regime priority list exactly as the specification words it
(spec §4.1): range → oversold → overbought → accumulation → distribution →
else trending.  Written from the spec, to be compared with the source
embedding `get_market_regime`. -/
def regimeSpec (z rsi _atr vz : ℚ) (t : Trend) : Regime :=
  if |z| < 1 ∧ 40 < rsi ∧ rsi < 60 then .range
  else if z < -2 ∧ rsi < 30 ∧ t = .up then .oversold
  else if z > 2 ∧ rsi > 70 ∧ t = .down then .overbought
  else if z < -1 ∧ vz > 1 then .accumulation
  else if z > 1 ∧ vz < -1 then .distribution
  else .trending

/-! ## Altcoin liquidity / order-book adjustment slice
(signal_analyzer.analyze_altcoin_data, lines 373–409 and the signal
branches emitting `confidence` and `rr`).  The slice's inputs — the
integer score accumulated above it, the liquidity verdict, the order-book
stats and the raw reward/risk ratio — are taken as parameters. -/

/-- The order-book analysis fields this slice reads. -/
structure ObAnalysis where
  price_impact : ℚ
  spread_pct : ℚ
deriving DecidableEq, Repr

/-- `base_confidence` from the weighted score (scores are Python ints). -/
def base_confidence (score : ℤ) : Conf :=
  if score ≥ 6 ∨ score ≤ -6 then .high
  else if score ≥ 4 ∨ score ≤ -4 then .medium
  else .low

/-- One confidence downgrade step (high→medium, medium→low, low→low). -/
def downgradeTier : Conf → Conf
  | .high => .medium
  | .medium => .low
  | .low => .low

/-- `ob_analysis_to_use and (price_impact > 1.0 or spread_pct > 0.5)`. -/
def obStressed (ob : Option ObAnalysis) : Bool :=
  match ob with
  | none => false
  | some a => if a.price_impact > 1 ∨ a.spread_pct > 1/2 then true else false

/-- `final_confidence`: the base confidence, downgraded once when the
symbol is illiquid and once more when the order book is stressed. -/
def final_confidence (score : ℤ) (is_liquid : Bool) (ob : Option ObAnalysis) : Conf :=
  let c1 := if is_liquid then base_confidence score else downgradeTier (base_confidence score)
  if obStressed ob then downgradeTier c1 else c1

/-- `adjusted_rr`: scaled once by 0.8 when illiquid or order-book stressed. -/
def adjusted_rr (rr : ℚ) (is_liquid : Bool) (ob : Option ObAnalysis) : ℚ :=
  if is_liquid = false ∨ obStressed ob = true then rr * (4/5) else rr

/-- Round half to even to the nearest integer (Python's `round`), idealized
over exact rationals in place of binary floats. -/
def roundHalfEven (x : ℚ) : ℤ :=
  if x - ⌊x⌋ < 1/2 then ⌊x⌋
  else if x - ⌊x⌋ > 1/2 then ⌊x⌋ + 1
  else if ⌊x⌋ % 2 = 0 then ⌊x⌋ else ⌊x⌋ + 1

/-- Python `round(x, 2)`. -/
def round2 (x : ℚ) : ℚ := (roundHalfEven (x * 100) : ℚ) / 100

/-- The `'rr'` field of the emitted altcoin signal:
`round(adjusted_rr, 2)`. -/
def emitted_rr (rr : ℚ) (is_liquid : Bool) (ob : Option ObAnalysis) : ℚ :=
  round2 (adjusted_rr rr is_liquid ob)

/-- The `'confidence'` field of the emitted altcoin signal: each of the four
signal branches copies `final_confidence`; the HOLD fall-through keeps the
initial `"low"`. -/
def emitted_confidence (score : ℤ) (is_liquid : Bool) (ob : Option ObAnalysis) : Conf :=
  if score ≥ 6 then final_confidence score is_liquid ob
  else if score ≤ -6 then final_confidence score is_liquid ob
  else if score ≥ 4 then final_confidence score is_liquid ob
  else if score ≤ -4 then final_confidence score is_liquid ob
  else .low

/-! ## Signal combiner (signal_analyzer.combine_signals) -/

/-- A value of the BTC `consensus` dict as seen by `combine_signals`: the
isinstance check distinguishes tuple entries `(label, count)` from anything
else (in particular the bare label strings `analyze_btc_data` stores). -/
inductive ConsVal where
  | label (s : ConsLabel)
  | pair (s : ConsLabel) (n : ℕ)
deriving DecidableEq, Repr

/-- signal_analyzer.analyze_btc_data, lines 47–62: each
`btc_consensus[k], k_count = get_consensus_signal(...)` destructures the
returned tuple and stores only its first component, a bare label. -/
def btcConsensusOf (rs : List (ConsLabel × ℕ)) : List ConsVal :=
  rs.map (fun r => .label r.1)

/-- The fields of the BTC context dict that `combine_signals` reads. -/
structure BtcSignal where
  regime : Regime
  trend : Trend
  consensus : List ConsVal
  confidence : Conf
  score : ℚ
  close_series : Option (List ℚ)

/-- The fields of the altcoin signal dict that `combine_signals` reads. -/
structure AltSignal where
  score : ℚ
  rr : ℚ
  close_series : Option (List ℚ)

/-- The combined final signal label. -/
inductive FinalLabel where
  | STRONG_LONG | WEAK_LONG | STRONG_SHORT | WEAK_SHORT | HOLD
deriving DecidableEq, Repr

/-- `consensus_strength`: +1 per tuple-shaped BUY entry, −1 per tuple-shaped
SELL entry; non-tuple entries are skipped by the isinstance check. -/
def consensusStrength (cons : List ConsVal) : ℤ :=
  (cons.map (fun v =>
    match v with
    | .pair .BUY _ => (1 : ℤ)
    | .pair .SELL _ => -1
    | .pair .HOLD _ => 0
    | .label _ => 0)).sum

/-- `consensus_indicators_count`: number of tuple-shaped entries. -/
def consensusCount (cons : List ConsVal) : ℕ :=
  (cons.filter (fun v => match v with | .pair _ _ => true | .label _ => false)).length

/-- `normalized_consensus_strength`. -/
def normalizedConsensusStrength (cons : List ConsVal) : ℚ :=
  if consensusCount cons > 0 then
    (consensusStrength cons : ℚ) / (consensusCount cons : ℚ)
  else 0

/-- `combined_btc_confidence_score`: the base qualitative confidence
(high = 1.0, medium = 0.5, low = 0.25) blended 70/30 with the normalized
consensus strength mapped from [−1, 1] to [0, 1]. -/
def combinedBtcConfidenceScore (cons : List ConsVal) (base : Conf) : ℚ :=
  let baseScore : ℚ :=
    match base with
    | .high => 1
    | .medium => 1/2
    | .low => 1/4
  baseScore * (1 - 3/10) + ((normalizedConsensusStrength cons + 1) / 2) * (3/10)

/-- `final_btc_confidence`: bucketed back to high(>0.75)/medium(>0.4)/low. -/
def finalBtcConfidence (cons : List ConsVal) (base : Conf) : Conf :=
  if combinedBtcConfidenceScore cons base > 3/4 then .high
  else if combinedBtcConfidenceScore cons base > 2/5 then .medium
  else .low

/-- `base_weight`: 0.7, dropped to 0.5 when the BTC regime is range or the
BTC trend is neutral. -/
def baseWeight (btc : BtcSignal) : ℚ :=
  if btc.regime = .range ∨ btc.trend = .neutral then 1/2 else 7/10

/-- `btc_weight` before the divergence override:
`base_weight * btc_confidence_factor` with factor 0.5 iff the combined BTC
confidence is low. -/
def btcWeightPre (btc : BtcSignal) : ℚ :=
  baseWeight btc *
    (if finalBtcConfidence btc.consensus btc.confidence = .low then 1/2 else 1)

/-- The `(btc_weight, alt_weight)` pair actually used, after the divergence
override to (0.3, 0.7). -/
def weightsOf (btc : BtcSignal) (divergent : Bool) : ℚ × ℚ :=
  if divergent then (3/10, 7/10) else (btcWeightPre btc, 1 - btcWeightPre btc)

/-- The blended score as a function of the divergence flag: the Alt-Season
branch `alt_score * 1.3` when divergent, the altcoin score is above 4 and
the BTC signal is weak or its combined confidence is not high; otherwise
the weighted blend. -/
def blendScoreD (btc : BtcSignal) (alt : AltSignal) (divergent : Bool) : ℚ :=
  if divergent = true ∧ alt.score > 4 ∧
      (|btc.score| ≤ 4 ∨ finalBtcConfidence btc.consensus btc.confidence ≠ .high) then
    alt.score * (13/10)
  else
    btc.score * (weightsOf btc divergent).1 + alt.score * (weightsOf btc divergent).2

/-- The reward/risk gate on the blended score: `rr < 0.5` clamps it to 0
(the source's `min(s, 0)` / `max(s, 0)` expression), `rr > 1.5`
amplifies it by 1.1. -/
def gatedScore (s rr : ℚ) : ℚ :=
  if rr < 1/2 then (if s > 0 then min s 0 else max s 0)
  else if rr > 3/2 then s * (11/10)
  else s

/-- The final signal label and confidence.  `potential_long_signal` /
`potential_short_signal` are computed from the blended score *before* the
reward/risk gate mutates `final_score`; the secondary `|score| > 3` branch
and the `> 7` confidence tests read the gated score. -/
def finalSignalOf (pre rr : ℚ) : FinalLabel × Conf :=
  let fs := gatedScore pre rr
  if pre > 5 ∧ rr ≥ 4/5 then
    (if rr ≥ 6/5 then .STRONG_LONG else .WEAK_LONG,
     if fs > 7 then .high else .medium)
  else if pre < -5 ∧ rr ≥ 4/5 then
    (if rr ≥ 6/5 then .STRONG_SHORT else .WEAK_SHORT,
     if fs < -7 then .high else .medium)
  else if |fs| > 3 ∧ rr ≥ 1 then
    (if fs > 0 then .WEAK_LONG else .WEAK_SHORT, .medium)
  else (.HOLD, .low)

/-- `corr = calculate_correlation(alt['close_series'], btc['close_series'], 30)`. -/
noncomputable def corrOf (btc : BtcSignal) (alt : AltSignal) : ℝ :=
  calculate_correlation alt.close_series btc.close_series 30

/-- `is_divergent = abs(corr) < 0.5`. -/
noncomputable def isDivergentOf (btc : BtcSignal) (alt : AltSignal) : Bool :=
  if |corrOf btc alt| < 1/2 then true else false

/-- The blended score of the combiner (`final_score` before the
reward/risk gate). -/
noncomputable def blendScore (btc : BtcSignal) (alt : AltSignal) : ℚ :=
  blendScoreD btc alt (isDivergentOf btc alt)

/-- The fields of the combined-signal dict the claims observe. -/
structure CombineResult where
  final_signal : FinalLabel
  confidence : Conf
  score : ℚ
  is_divergent : Bool
  btc_weight : ℚ
  alt_weight : ℚ

/-- signal_analyzer.combine_signals (both inputs present; the source
returns `None` when either is missing or on an internal exception, neither
of which occurs on the embedded fragment). -/
noncomputable def combine_signals (btc : BtcSignal) (alt : AltSignal) : CombineResult :=
  let d := isDivergentOf btc alt
  let pre := blendScoreD btc alt d
  { final_signal := (finalSignalOf pre alt.rr).1
    confidence := (finalSignalOf pre alt.rr).2
    score := gatedScore pre alt.rr
    is_divergent := d
    btc_weight := (weightsOf btc d).1
    alt_weight := (weightsOf btc d).2 }

/-- The final-signal rule exactly as the claim words it: the primary
long/short thresholds are tested on the *gated* final score (i.e. after the
×1.1 amplification), as are the secondary path and the confidence tests.
Written from the claim, to be compared with the source embedding
`finalSignalOf`. -/
def finalSignalSpecClaim (s rr : ℚ) : FinalLabel × Conf :=
  let fs := gatedScore s rr
  if fs > 5 ∧ rr ≥ 4/5 then
    (if rr ≥ 6/5 then .STRONG_LONG else .WEAK_LONG,
     if fs > 7 then .high else .medium)
  else if fs < -5 ∧ rr ≥ 4/5 then
    (if rr ≥ 6/5 then .STRONG_SHORT else .WEAK_SHORT,
     if fs < -7 then .high else .medium)
  else if |fs| > 3 ∧ rr ≥ 1 then
    (if fs > 0 then .WEAK_LONG else .WEAK_SHORT, .medium)
  else (.HOLD, .low)

/-- `seriesMissing o`: the close series is absent or shorter than the
30-sample correlation window. -/
def seriesMissing (o : Option (List ℚ)) : Bool :=
  match o with
  | none => true
  | some xs => decide (xs.length < 30)

/-! ## Theorems -/

/-- C1 (counterexample): the consensus rule as claimed — "whenever at least
`t` timeframes agree on a direction, the result is that direction with its
count" — fails when both directions reach the threshold: with votes
`{+1, −1}` and threshold 1 the sell direction has 1 ≥ 1 agreeing timeframe,
yet the source returns BUY (the buy branch is checked first). -/
theorem consensus_tie_counterexample :
    sellCount [PyVal.num 1, PyVal.num (-1)] .binary ≥ 1 ∧
    get_consensus_signal [PyVal.num 1, PyVal.num (-1)] 1 .binary ≠
      (.SELL, sellCount [PyVal.num 1, PyVal.num (-1)] .binary) := by
  decide

/-- C1 (amended): for every non-empty vote map and threshold `t`,
`get_consensus_signal` returns (BUY, buy count) when at least `t` votes
convert to buy; otherwise (SELL, sell count) when at least `t` convert to
sell; otherwise (HOLD, 0) — BUY takes precedence on ties. -/
theorem get_consensus_signal_characterization
    (values : List PyVal) (t : ℕ) (ty : SignalType) (hne : values ≠ []) :
    (buyCount values ty ≥ t →
      get_consensus_signal values t ty = (.BUY, buyCount values ty)) ∧
    (buyCount values ty < t → sellCount values ty ≥ t →
      get_consensus_signal values t ty = (.SELL, sellCount values ty)) ∧
    (buyCount values ty < t → sellCount values ty < t →
      get_consensus_signal values t ty = (.HOLD, 0)) := by
  refine ⟨fun h => ?_, fun h1 h2 => ?_, fun h1 h2 => ?_⟩ <;>
    simp only [get_consensus_signal, buyCount, sellCount, if_neg hne] at *
  · rw [if_pos h]
  · rw [if_neg (by omega), if_pos h2]
  · rw [if_neg (by omega), if_neg (by omega)]

/-- Witness for the amended C1 theorem at a concrete input: two buy votes
with threshold 2 yield (BUY, 2). -/
theorem get_consensus_signal_characterization_witness :
    get_consensus_signal [PyVal.num 1, PyVal.num 1] 2 .binary = (.BUY, 2) := by
  have h := (get_consensus_signal_characterization
    [PyVal.num 1, PyVal.num 1] 2 .binary (by decide)).1 (by decide)
  have hb : buyCount [PyVal.num 1, PyVal.num 1] .binary = 2 := by decide
  rw [hb] at h
  exact h

/-- C7: the market-regime classifier agrees with the specification's
priority-ordered rule list and is total over the six regimes. -/
theorem get_market_regime_priority_total (z rsi atr vz : ℚ) (t : Trend) :
    (get_market_regime z rsi atr vz t).1 = regimeSpec z rsi atr vz t ∧
    ((get_market_regime z rsi atr vz t).1 = .range ∨
     (get_market_regime z rsi atr vz t).1 = .oversold ∨
     (get_market_regime z rsi atr vz t).1 = .overbought ∨
     (get_market_regime z rsi atr vz t).1 = .accumulation ∨
     (get_market_regime z rsi atr vz t).1 = .distribution ∨
     (get_market_regime z rsi atr vz t).1 = .trending) := by
  constructor
  · rfl
  · simp only [get_market_regime]
    split_ifs <;> simp

/-- C8: every indicator returns exactly its documented neutral default on
input shorter than its minimum length (RSI 50.0, MACD (0,0,0), Stochastic
RSI (0.5,0.5), ATR% 0.0, Z-score (0,0,0), correlation 0.0); each embedded
indicator is a total function, so no error or absent value is possible. -/
theorem indicator_neutral_defaults (xs ys : List ℚ) (df : List Candle)
    (p f s sg k d w : ℕ) :
    (xs.length < max 2 p → calculate_rsi xs p = 50) ∧
    (xs.length < max (max f s) sg + 2 → calculate_macd xs f s sg = (0, 0, 0)) ∧
    (xs.length < max (max p k) d + 5 → calculate_stoch_rsi xs p k d = (1/2, 1/2)) ∧
    (df.length < max p 2 → calculate_atr_level df p = 0) ∧
    (xs.length < w ∨ w = 0 → calculate_z_score xs w = (0, 0, 0)) ∧
    (xs.length < w ∨ ys.length < w → calculate_correlation (some xs) (some ys) w = 0) := by
  refine ⟨fun h => ?_, fun h => ?_, fun h => ?_, fun h => ?_, fun h => ?_, fun h => ?_⟩
  · unfold calculate_rsi; rw [if_pos h]
  · unfold calculate_macd; rw [if_pos h]
  · unfold calculate_stoch_rsi; rw [if_pos h]
  · unfold calculate_atr_level; rw [if_pos h]
  · unfold calculate_z_score; rw [if_pos h]
  · simp only [calculate_correlation]; rw [if_pos h]

/-- Witness for C8 at concrete short inputs (5 closes with the configured
periods, e.g. RSI on 5 points with period 14 → 50.0). -/
theorem indicator_neutral_defaults_witness :
    calculate_rsi [1, 2, 3, 4, 5] 14 = 50 ∧
    calculate_macd [1, 2, 3, 4, 5] 12 26 9 = (0, 0, 0) ∧
    calculate_stoch_rsi [1, 2, 3, 4, 5] 14 3 3 = (1/2, 1/2) ∧
    calculate_atr_level [⟨2, 1, 1⟩] 14 = 0 ∧
    calculate_z_score [1, 2, 3, 4, 5] 20 = (0, 0, 0) ∧
    calculate_correlation (some [1, 2, 3, 4, 5]) (some []) 30 = 0 := by
  have H := indicator_neutral_defaults [1, 2, 3, 4, 5] [] [⟨2, 1, 1⟩] 14 12 26 9 3 3 20
  have H20 := indicator_neutral_defaults [1, 2, 3, 4, 5] [] [⟨2, 1, 1⟩] 14 12 26 9 3 3 30
  exact ⟨H.1 (by decide), H.2.1 (by decide), H.2.2.1 (by decide),
    H.2.2.2.1 (by decide), H.2.2.2.2.1 (by decide), H20.2.2.2.2.2 (by decide)⟩

/-- C3 (counterexample): a present-but-insufficient 4h series (5 candles)
shadows a sufficient 1h series (50 candles, on which EMA50 > EMA200 would
give 'up'): the source returns 'neutral' because it picks the first
*non-empty* — not the first *sufficient* — timeframe. -/
theorem calculate_trend_first_sufficient_counterexample :
    (calculate_trend ⟨some [1, 2, 3, 4, 5],
      some [0,0,0,0,0,0,0,0,0,0,0,0,0,0,0,0,0,0,0,0,0,0,0,0,0,
            0,0,0,0,0,0,0,0,0,0,0,0,0,0,0,0,0,0,0,0,0,0,0,0,1], none⟩).1 = .neutral ∧
    trendSpecClaim ⟨some [1, 2, 3, 4, 5],
      some [0,0,0,0,0,0,0,0,0,0,0,0,0,0,0,0,0,0,0,0,0,0,0,0,0,
            0,0,0,0,0,0,0,0,0,0,0,0,0,0,0,0,0,0,0,0,0,0,0,0,1], none⟩ = .up ∧
    (calculate_trend ⟨some [1, 2, 3, 4, 5],
      some [0,0,0,0,0,0,0,0,0,0,0,0,0,0,0,0,0,0,0,0,0,0,0,0,0,
            0,0,0,0,0,0,0,0,0,0,0,0,0,0,0,0,0,0,0,0,0,0,0,0,1], none⟩).1 ≠
      trendSpecClaim ⟨some [1, 2, 3, 4, 5],
      some [0,0,0,0,0,0,0,0,0,0,0,0,0,0,0,0,0,0,0,0,0,0,0,0,0,
            0,0,0,0,0,0,0,0,0,0,0,0,0,0,0,0,0,0,0,0,0,0,0,0,1], none⟩ := by
  have h1 : (calculate_trend ⟨some [1, 2, 3, 4, 5],
      some [0,0,0,0,0,0,0,0,0,0,0,0,0,0,0,0,0,0,0,0,0,0,0,0,0,
            0,0,0,0,0,0,0,0,0,0,0,0,0,0,0,0,0,0,0,0,0,0,0,0,1], none⟩).1 = .neutral := by
    simp [calculate_trend, firstPresent, firstPresent.firstPresent1, EMA_SHORT]
  have h2 : trendSpecClaim ⟨some [1, 2, 3, 4, 5],
      some [0,0,0,0,0,0,0,0,0,0,0,0,0,0,0,0,0,0,0,0,0,0,0,0,0,
            0,0,0,0,0,0,0,0,0,0,0,0,0,0,0,0,0,0,0,0,0,0,0,0,1], none⟩ = .up := by
    simp only [trendSpecClaim, EMA_SHORT, EMA_LONG]
    norm_num [calculate_ema_last, ewmLastSpan, ewmLastAlpha, ewmStep]
  refine ⟨h1, h2, ?_⟩
  rw [h1, h2]
  decide

/-- C3 (amended): the trend search uses the first *present non-empty*
timeframe in the order 4h → 1h → 15m; if that series is shorter than
`max(EMA_SHORT, 10)` the trend is neutral, otherwise the EMA 50/200 cross
decides up/down/neutral. -/
theorem calculate_trend_amended (d : TFrames) :
    (calculate_trend d).1 = trendSpecAmended d := by
  unfold calculate_trend trendSpecAmended
  cases firstPresent d with
  | none => rfl
  | some xs =>
    by_cases h : xs.length ≥ max EMA_SHORT 10 <;> simp [h]

/-- C9 (counterexample): with an illiquid symbol *and* a stressed order
book (spread 0.6% > 0.5%), a score-derived high confidence is downgraded
twice, to low — not "exactly one tier" as claimed — and the emitted
reward/risk ratio is the 0.8-scaled ratio *rounded to 2 decimals*
(8/15 ↦ 0.53), not the exact scaled value. -/
theorem liquidity_double_downgrade_counterexample :
    base_confidence 6 = .high ∧
    final_confidence 6 false (some ⟨0, 3/5⟩) = .low ∧
    final_confidence 6 false (some ⟨0, 3/5⟩) ≠ downgradeTier (base_confidence 6) ∧
    emitted_rr (2/3) false (some ⟨0, 3/5⟩) = 53/100 ∧
    emitted_rr (2/3) false (some ⟨0, 3/5⟩) ≠ (2/3) * (4/5) := by
  have hb : base_confidence 6 = .high := by decide
  have hs : obStressed (some (⟨0, 3/5⟩ : ObAnalysis)) = true := by
    norm_num [obStressed]
  have hf : final_confidence 6 false (some ⟨0, 3/5⟩) = .low := by
    simp [final_confidence, hs, hb, downgradeTier]
  have hr : emitted_rr (2/3) false (some ⟨0, 3/5⟩) = 53/100 := by
    simp only [emitted_rr, adjusted_rr, hs]
    norm_num [round2, roundHalfEven]
  refine ⟨hb, hf, ?_, hr, ?_⟩
  · rw [hf, hb]; decide
  · rw [hr]; norm_num

/-- C9 (amended): one stress condition (illiquidity, or order-book spread
> 0.5% / price impact > 1.0%) downgrades the score-derived confidence by
exactly one tier; both together downgrade it twice; whenever at least one
holds, the emitted reward/risk ratio is the computed ratio scaled by 0.8
and rounded to two decimals. -/
theorem liquidity_adjust_characterization
    (score : ℤ) (liq : Bool) (ob : Option ObAnalysis) (rr : ℚ) :
    (liq = false ∧ obStressed ob = false →
      final_confidence score liq ob = downgradeTier (base_confidence score)) ∧
    (liq = true ∧ obStressed ob = true →
      final_confidence score liq ob = downgradeTier (base_confidence score)) ∧
    (liq = false ∧ obStressed ob = true →
      final_confidence score liq ob = downgradeTier (downgradeTier (base_confidence score))) ∧
    (liq = false ∨ obStressed ob = true →
      emitted_rr rr liq ob = round2 (rr * (4/5))) := by
  refine ⟨fun h => ?_, fun h => ?_, fun h => ?_, fun h => ?_⟩
  · simp [final_confidence, h.1, h.2]
  · simp [final_confidence, h.1, h.2]
  · simp [final_confidence, h.1, h.2]
  · rcases h with h | h <;> simp [emitted_rr, adjusted_rr, h]

/-- Witness for the amended C9 theorem: an illiquid symbol with no
order-book analysis downgrades high → medium and emits
round2(rr × 0.8). -/
theorem liquidity_adjust_characterization_witness :
    final_confidence 6 false none = downgradeTier (base_confidence 6) ∧
    emitted_rr (1/2) false none = round2 ((1/2) * (4/5)) := by
  have H := liquidity_adjust_characterization 6 false none (1/2)
  exact ⟨H.1 ⟨rfl, rfl⟩, H.2.2.2 (Or.inl rfl)⟩

/-- An absent or short close series short-circuits the correlation's length
guard (or its `except` branch) to 0.0. -/
theorem calculate_correlation_missing (s1 s2 : Option (List ℚ))
    (h : seriesMissing s1 = true ∨ seriesMissing s2 = true) :
    calculate_correlation s1 s2 30 = 0 := by
  cases s1 with
  | none => rfl
  | some xs =>
    cases s2 with
    | none => rfl
    | some ys =>
      simp only [seriesMissing, decide_eq_true_eq] at h
      simp only [calculate_correlation]
      rw [if_pos h]

/-- A correlation of absolute value below 0.5 sets the divergence flag. -/
theorem isDivergentOf_of_corr (btc : BtcSignal) (alt : AltSignal)
    (h : |corrOf btc alt| < 1/2) : isDivergentOf btc alt = true := by
  unfold isDivergentOf
  rw [if_pos h]

/-- C5: whenever the 30-period correlation between the altcoin and BTC
close series has absolute value below 0.5, the altcoin score is 5 and the
BTC score is 1, the divergence branch fires: the blended score is
5 × 1.3 = 6.5 and the combiner reports is_divergent = True. -/
theorem combine_divergence_branch (btc : BtcSignal) (alt : AltSignal)
    (hc : |corrOf btc alt| < 1/2) (ha : alt.score = 5) (hb : btc.score = 1) :
    blendScore btc alt = 13/2 ∧ (combine_signals btc alt).is_divergent = true := by
  have hd := isDivergentOf_of_corr btc alt hc
  constructor
  · unfold blendScore
    rw [hd]
    unfold blendScoreD
    rw [if_pos ⟨rfl, by rw [ha]; norm_num, Or.inl (by rw [hb]; norm_num)⟩]
    rw [ha]
    norm_num
  · simp [combine_signals, hd]

/-- Witness for C5 at a concrete input: both close series absent gives
correlation 0, |0| < 0.5. -/
theorem combine_divergence_branch_witness :
    blendScore ⟨.trending, .up, [], .low, 1, none⟩ ⟨5, 1, none⟩ = 13/2 ∧
    (combine_signals ⟨.trending, .up, [], .low, 1, none⟩ ⟨5, 1, none⟩).is_divergent = true := by
  have hc : corrOf ⟨.trending, .up, [], .low, 1, none⟩ (⟨5, 1, none⟩ : AltSignal) = 0 := rfl
  exact combine_divergence_branch ⟨.trending, .up, [], .low, 1, none⟩ ⟨5, 1, none⟩
    (by rw [hc]; norm_num) rfl rfl

/-- C6: a reward/risk ratio below 0.5 clamps the final score to at most 0
and suppresses the directional signal to HOLD; a ratio above 1.5
multiplies the blended score by 1.1. -/
theorem combine_rr_gate (btc : BtcSignal) (alt : AltSignal) :
    (alt.rr < 1/2 → (combine_signals btc alt).score ≤ 0 ∧
      (combine_signals btc alt).final_signal = .HOLD) ∧
    (alt.rr > 3/2 → (combine_signals btc alt).score = blendScore btc alt * (11/10)) := by
  constructor
  · intro h
    constructor
    · show gatedScore (blendScoreD btc alt (isDivergentOf btc alt)) alt.rr ≤ 0
      unfold gatedScore
      rw [if_pos h]
      split_ifs with h2
      · exact min_le_right _ _
      · exact max_le (le_of_not_lt h2) le_rfl
    · show (finalSignalOf (blendScoreD btc alt (isDivergentOf btc alt)) alt.rr).1 = .HOLD
      unfold finalSignalOf
      rw [if_neg (fun hx => by linarith [hx.2]),
        if_neg (fun hx => by linarith [hx.2]),
        if_neg (fun hx => by linarith [hx.2])]
  · intro h
    show gatedScore (blendScoreD btc alt (isDivergentOf btc alt)) alt.rr =
      blendScore btc alt * (11/10)
    unfold gatedScore blendScore
    rw [if_neg (by linarith), if_pos h]

/-- Witness for C6: rr = 0.3 suppresses (score ≤ 0, HOLD); rr = 2
amplifies the blended score by 1.1. -/
theorem combine_rr_gate_witness :
    ((combine_signals ⟨.trending, .up, [], .high, 6, none⟩ ⟨6, 3/10, none⟩).score ≤ 0 ∧
      (combine_signals ⟨.trending, .up, [], .high, 6, none⟩ ⟨6, 3/10, none⟩).final_signal = .HOLD) ∧
    (combine_signals ⟨.trending, .up, [], .high, 6, none⟩ ⟨6, 2, none⟩).score =
      blendScore ⟨.trending, .up, [], .high, 6, none⟩ ⟨6, 2, none⟩ * (11/10) := by
  constructor
  · exact (combine_rr_gate ⟨.trending, .up, [], .high, 6, none⟩ ⟨6, 3/10, none⟩).1
      (show (3/10 : ℚ) < 1/2 by norm_num)
  · exact (combine_rr_gate ⟨.trending, .up, [], .high, 6, none⟩ ⟨6, 2, none⟩).2
      (show (2 : ℚ) > 3/2 by norm_num)

/-- C10 (implicit): an absent close series, or one shorter than the
30-sample correlation window, on either side makes the computed
correlation exactly 0.0, so the combiner always reports
is_divergent = True and uses the forced BTC weight 0.3 — indistinguishable
from genuine divergence. -/
theorem combine_missing_series_divergent (btc : BtcSignal) (alt : AltSignal)
    (h : seriesMissing alt.close_series = true ∨ seriesMissing btc.close_series = true) :
    corrOf btc alt = 0 ∧
    (combine_signals btc alt).is_divergent = true ∧
    (combine_signals btc alt).btc_weight = 3/10 := by
  have hc : corrOf btc alt = 0 := calculate_correlation_missing _ _ h
  have hd : isDivergentOf btc alt = true :=
    isDivergentOf_of_corr btc alt (by rw [hc]; norm_num)
  refine ⟨hc, ?_, ?_⟩ <;> simp [combine_signals, hd, weightsOf]

/-- Witness for C10: a 2-sample altcoin close series (shorter than 30)
against an absent BTC series. -/
theorem combine_missing_series_divergent_witness :
    (combine_signals ⟨.trending, .up, [], .high, 2, none⟩ ⟨1, 1, some [1, 2]⟩).is_divergent = true ∧
    (combine_signals ⟨.trending, .up, [], .high, 2, none⟩ ⟨1, 1, some [1, 2]⟩).btc_weight = 3/10 := by
  have H := combine_missing_series_divergent ⟨.trending, .up, [], .high, 2, none⟩
    ⟨1, 1, some [1, 2]⟩ (Or.inl (by decide))
  exact ⟨H.2.1, H.2.2⟩

/-- C4 (amended): final-signal generation characterized over the combiner.
The primary >5 / <−5 thresholds are tested on the *blended* score, before
the reward/risk clamp and ×1.1 amplification mutate `final_score`; the
secondary |score| > 3 path and the |score| > 7 confidence tests read the
gated score (`(combine_signals ...).score`).  A directional signal still
fires only with ratio ≥ 0.8 (primary, STRONG iff ratio ≥ 1.2) or
ratio ≥ 1.0 (secondary, always WEAK); otherwise HOLD with low
confidence. -/
theorem combine_final_signal_characterization (btc : BtcSignal) (alt : AltSignal) :
    (blendScore btc alt > 5 ∧ alt.rr ≥ 4/5 →
      (combine_signals btc alt).final_signal =
        (if alt.rr ≥ 6/5 then .STRONG_LONG else .WEAK_LONG) ∧
      (combine_signals btc alt).confidence =
        (if (combine_signals btc alt).score > 7 then .high else .medium)) ∧
    (blendScore btc alt < -5 ∧ alt.rr ≥ 4/5 →
      (combine_signals btc alt).final_signal =
        (if alt.rr ≥ 6/5 then .STRONG_SHORT else .WEAK_SHORT) ∧
      (combine_signals btc alt).confidence =
        (if (combine_signals btc alt).score < -7 then .high else .medium)) ∧
    (¬(blendScore btc alt > 5 ∧ alt.rr ≥ 4/5) →
      ¬(blendScore btc alt < -5 ∧ alt.rr ≥ 4/5) →
      |(combine_signals btc alt).score| > 3 ∧ alt.rr ≥ 1 →
      (combine_signals btc alt).final_signal =
        (if (combine_signals btc alt).score > 0 then .WEAK_LONG else .WEAK_SHORT) ∧
      (combine_signals btc alt).confidence = .medium) ∧
    (¬(blendScore btc alt > 5 ∧ alt.rr ≥ 4/5) →
      ¬(blendScore btc alt < -5 ∧ alt.rr ≥ 4/5) →
      ¬(|(combine_signals btc alt).score| > 3 ∧ alt.rr ≥ 1) →
      (combine_signals btc alt).final_signal = .HOLD ∧
      (combine_signals btc alt).confidence = .low) := by
  have hb : blendScore btc alt = blendScoreD btc alt (isDivergentOf btc alt) := rfl
  have hs : (combine_signals btc alt).score =
      gatedScore (blendScoreD btc alt (isDivergentOf btc alt)) alt.rr := rfl
  have hf : (combine_signals btc alt).final_signal =
      (finalSignalOf (blendScoreD btc alt (isDivergentOf btc alt)) alt.rr).1 := rfl
  have hc : (combine_signals btc alt).confidence =
      (finalSignalOf (blendScoreD btc alt (isDivergentOf btc alt)) alt.rr).2 := rfl
  rw [hb, hs, hf, hc]
  unfold finalSignalOf
  refine ⟨fun h => ?_, fun h => ?_, fun h1 h2 h3 => ?_, fun h1 h2 h3 => ?_⟩
  · rw [if_pos h]
    exact ⟨rfl, rfl⟩
  · rw [if_neg (fun hx => by linarith [h.1, hx.1]), if_pos h]
    exact ⟨rfl, rfl⟩
  · rw [if_neg h1, if_neg h2, if_pos h3]
    exact ⟨rfl, rfl⟩
  · rw [if_neg h1, if_neg h2, if_neg h3]
    exact ⟨rfl, rfl⟩

/-- Witness for the amended C4 theorem: divergent contexts with altcoin
score 6 and BTC score 1 blend to 6 × 1.3 = 7.8 > 5; with ratio 1.2 the
primary STRONG_LONG branch fires. -/
theorem combine_final_signal_characterization_witness :
    (combine_signals ⟨.trending, .up, [], .high, 1, none⟩ ⟨6, 6/5, none⟩).final_signal =
      .STRONG_LONG := by
  have hc : corrOf ⟨.trending, .up, [], .high, 1, none⟩ (⟨6, 6/5, none⟩ : AltSignal) = 0 := rfl
  have hd : isDivergentOf ⟨.trending, .up, [], .high, 1, none⟩ (⟨6, 6/5, none⟩ : AltSignal) = true :=
    isDivergentOf_of_corr _ _ (by rw [hc]; norm_num)
  have hpre : blendScore ⟨.trending, .up, [], .high, 1, none⟩ (⟨6, 6/5, none⟩ : AltSignal) = 39/5 := by
    unfold blendScore
    rw [hd]
    unfold blendScoreD
    rw [if_pos ⟨rfl, by norm_num, Or.inl (by norm_num)⟩]
    norm_num
  have H := (combine_final_signal_characterization
    ⟨.trending, .up, [], .high, 1, none⟩ ⟨6, 6/5, none⟩).1
    ⟨by rw [hpre]; norm_num, show (6/5 : ℚ) ≥ 4/5 by norm_num⟩
  have H1 := H.1
  rw [if_pos (show (6/5 : ℚ) ≥ 6/5 by norm_num)] at H1
  exact H1

/-- C4 (counterexample): with divergent series, BTC score 6 and altcoin
score 4 the blend is 0.3·6 + 0.7·4 = 4.6; with ratio 1.6 the gate
amplifies it to 5.06 > 5.  The claim — thresholds tested on the
post-amplification score — prescribes STRONG_LONG, but the source computed
its `potential_long_signal` flag from 4.6 ≤ 5 before the amplification and
emits WEAK_LONG through the secondary path. -/
theorem combine_threshold_pregate_counterexample :
    (combine_signals ⟨.trending, .up, [], .high, 6, none⟩ ⟨4, 8/5, none⟩).final_signal =
      .WEAK_LONG ∧
    (finalSignalSpecClaim
      (blendScore ⟨.trending, .up, [], .high, 6, none⟩ ⟨4, 8/5, none⟩)
      ((⟨4, 8/5, none⟩ : AltSignal).rr)).1 = .STRONG_LONG ∧
    (combine_signals ⟨.trending, .up, [], .high, 6, none⟩ ⟨4, 8/5, none⟩).final_signal ≠
    (finalSignalSpecClaim
      (blendScore ⟨.trending, .up, [], .high, 6, none⟩ ⟨4, 8/5, none⟩)
      ((⟨4, 8/5, none⟩ : AltSignal).rr)).1 := by
  have hc : corrOf ⟨.trending, .up, [], .high, 6, none⟩ (⟨4, 8/5, none⟩ : AltSignal) = 0 := rfl
  have hd : isDivergentOf ⟨.trending, .up, [], .high, 6, none⟩ (⟨4, 8/5, none⟩ : AltSignal) = true :=
    isDivergentOf_of_corr _ _ (by rw [hc]; norm_num)
  have hpre : blendScoreD ⟨.trending, .up, [], .high, 6, none⟩ (⟨4, 8/5, none⟩ : AltSignal) true = 23/5 := by
    unfold blendScoreD
    rw [if_neg (fun hx => by have := hx.2.1; norm_num at this)]
    simp only [weightsOf, if_pos rfl]
    norm_num
  have hpreB : blendScore ⟨.trending, .up, [], .high, 6, none⟩ (⟨4, 8/5, none⟩ : AltSignal) = 23/5 := by
    unfold blendScore
    rw [hd, hpre]
  have h1 : (combine_signals ⟨.trending, .up, [], .high, 6, none⟩ ⟨4, 8/5, none⟩).final_signal =
      (finalSignalOf (blendScoreD ⟨.trending, .up, [], .high, 6, none⟩ (⟨4, 8/5, none⟩ : AltSignal)
        (isDivergentOf ⟨.trending, .up, [], .high, 6, none⟩ (⟨4, 8/5, none⟩ : AltSignal)))
        ((⟨4, 8/5, none⟩ : AltSignal).rr)).1 := rfl
  have habs : |(253 : ℚ)/50| = 253/50 := abs_of_pos (by norm_num)
  rw [h1, hd, hpre, hpreB]
  norm_num [finalSignalOf, finalSignalSpecClaim, gatedScore, habs]
  decide

/-- C2 (code_bug evaluation): `analyze_btc_data` stores bare labels in the
BTC consensus dict, so `combine_signals`' isinstance-tuple tally skips all
five entries of an all-BUY consensus: the tally count is 0 and the
combined BTC confidence score of a high base is
1.0 × 0.7 + 0.5 × 0.3 = 0.85 < 1.0 — the consensus never raises the
combined score above the base-only value, contrary to the claim's intended
70/30 blend with the BUY tally (which would give 1.0). -/
theorem btc_consensus_tally_dead_code :
    consensusCount (btcConsensusOf
      [(.BUY, 3), (.BUY, 3), (.BUY, 2), (.BUY, 3), (.BUY, 2)]) = 0 ∧
    combinedBtcConfidenceScore (btcConsensusOf
      [(.BUY, 3), (.BUY, 3), (.BUY, 2), (.BUY, 3), (.BUY, 2)]) .high = 17/20 ∧
    (17/20 : ℚ) < 1 := by
  refine ⟨by decide, ?_, by norm_num⟩
  norm_num [combinedBtcConfidenceScore, normalizedConsensusStrength, consensusCount,
    consensusStrength, btcConsensusOf, List.filter]

end Trade
